import Mathlib

/-
  Shallow embedding of the fitness-tracker backend
  (src/fitness_tracker/activities/{models,serializers,views}.py and
   src/fitness_tracker/users/{models,serializers,views}.py).

  Conventions used throughout:
  * Numeric values (Decimal fields, Python arithmetic) are modelled as exact
    rationals; `round(x, 2)` is modelled as decimal rounding half-to-even at
    two places over exact rationals (binary floating-point representation
    effects are out of scope).
  * Nullable columns / absent attributes are `Option`; Python truthiness of a
    numeric value additionally requires the value to be nonzero, and of a
    string requires it to be nonempty, and the embedding keeps those checks
    where the source relies on truthiness.
  * Calendar dates appear in two roles: where the code formats or decomposes
    a date (title generation, age) we use `CalDate` (year/month/day); where
    the code only compares dates and shifts them by whole days
    (query filters, `timedelta(days=n)`) we use the day ordinal as an `Int`.
-/

/-- Round a rational to the nearest integer, ties to even
(the rounding Python's builtin `round` uses): the fractional part decides
between floor and floor + 1, a tie going to the even neighbour. -/
def roundHalfEven (q : ℚ) : ℤ :=
  if q - (⌊q⌋ : ℚ) < 1/2 then ⌊q⌋
  else if (1:ℚ)/2 < q - (⌊q⌋ : ℚ) then ⌊q⌋ + 1
  else if ⌊q⌋ % 2 = 0 then ⌊q⌋ else ⌊q⌋ + 1

/-- Python's `round(x, 2)` over exact rationals. -/
def round2 (q : ℚ) : ℚ := ((roundHalfEven (100 * q) : ℤ) : ℚ) / 100

/-- A calendar date, used where the source decomposes or formats dates. -/
structure CalDate where
  year : ℕ
  month : ℕ
  day : ℕ
deriving DecidableEq, Repr

/-- Zero-pad a natural number to a given width, as Python date formatting does. -/
def padNum (w : ℕ) (n : ℕ) : String :=
  let s := toString n
  String.mk (List.replicate (w - s.length) '0') ++ s

/-- `str(date)` in Python: ISO "YYYY-MM-DD". -/
def CalDate.toIso (d : CalDate) : String :=
  padNum 4 d.year ++ "-" ++ padNum 2 d.month ++ "-" ++ padNum 2 d.day

/-- `Activity.ACTIVITY_TYPE_CHOICES` (activities/models.py lines 12-31):
stored code paired with its display name. -/
def ACTIVITY_TYPE_CHOICES : List (String × String) := [
  ("RUNNING", "Running"),
  ("CYCLING", "Cycling"),
  ("SWIMMING", "Swimming"),
  ("WALKING", "Walking"),
  ("WEIGHTLIFTING", "Weightlifting"),
  ("YOGA", "Yoga"),
  ("HIIT", "HIIT"),
  ("CROSSFIT", "CrossFit"),
  ("BOXING", "Boxing"),
  ("ROWING", "Rowing"),
  ("PILATES", "Pilates"),
  ("DANCING", "Dancing"),
  ("HIKING", "Hiking"),
  ("BASKETBALL", "Basketball"),
  ("FOOTBALL", "Football"),
  ("TENNIS", "Tennis"),
  ("GOLF", "Golf"),
  ("OTHER", "Other")]

/-- `Activity.INTENSITY_CHOICES` (activities/models.py lines 33-38). -/
def INTENSITY_CHOICES : List (String × String) := [
  ("LOW", "Low"),
  ("MODERATE", "Moderate"),
  ("HIGH", "High"),
  ("EXTREME", "Extreme")]

/-- Django's `get_activity_type_display`: look the stored code up in the
choices table; Django falls back to the raw value when it is not a choice. -/
def getActivityTypeDisplay (code : String) : String :=
  match ACTIVITY_TYPE_CHOICES.find? (fun c => c.1 = code) with
  | some c => c.2
  | none => code

/-- The `Activity` model (activities/models.py) in its model-layer role:
the fields the derived properties `pace`/`speed` and `save` read.
`title` is a Django `CharField` with `blank=True`: an absent title is stored
as the empty string. `duration` is minutes, a positive integer by the model
validator. `distance` is a nullable decimal in kilometres. -/
structure Activity where
  activity_type : String
  title : String
  duration : ℕ
  distance : Option ℚ
  date : CalDate
deriving DecidableEq, Repr

/-- `Activity.pace` (activities/models.py lines 148-155):
`if self.distance and self.distance > 0: return round(self.duration / float(self.distance), 2)`,
else `None`. Truthiness of a Decimal means nonzero. -/
def Activity.pace (a : Activity) : Option ℚ :=
  match a.distance with
  | some d => if d ≠ 0 then (if 0 < d then some (round2 ((a.duration : ℚ) / d)) else none) else none
  | none => none

/-- `Activity.speed` (activities/models.py lines 157-165):
`if self.distance and self.duration > 0: hours = self.duration / 60; return round(float(self.distance) / hours, 2)`,
else `None`. -/
def Activity.speed (a : Activity) : Option ℚ :=
  match a.distance with
  | some d =>
      if d ≠ 0 then
        (if 0 < a.duration then some (round2 (d / ((a.duration : ℚ) / 60))) else none)
      else none
  | none => none

/-- `Activity.save` (activities/models.py lines 167-173): when the title is
falsy (absent or empty), set it to
`f"{self.get_activity_type_display()} - {self.date}"`. -/
def Activity.save (a : Activity) : Activity :=
  if a.title = "" then
    { a with title := getActivityTypeDisplay a.activity_type ++ " - " ++ a.date.toIso }
  else a

/-- The `UserProfile` model (users/models.py), fields read by the derived
properties. -/
structure UserProfile where
  date_of_birth : Option CalDate := none
  height : Option ℚ := none
  weight : Option ℚ := none
deriving DecidableEq, Repr

/-- `UserProfile.age` (users/models.py lines 48-57):
`today.year - dob.year - ((today.month, today.day) < (dob.month, dob.day))`,
with the Python bool coerced to 0/1 and tuples compared lexicographically;
`None` without a date of birth. The source reads `date.today()`; the clock
is passed explicitly here. -/
def UserProfile.age (p : UserProfile) (today : CalDate) : Option ℤ :=
  match p.date_of_birth with
  | some dob =>
      some ((today.year : ℤ) - (dob.year : ℤ) -
        (if today.month < dob.month ∨ (today.month = dob.month ∧ today.day < dob.day)
         then 1 else 0))
  | none => none

/-- A stored user account, as far as registration reads it. -/
structure RegUser where
  username : String
  email : String
  password : String
deriving DecidableEq, Repr

/-- The request body of `POST /api/auth/register/`. -/
structure RegistrationData where
  username : String
  email : String
  password : String
  password2 : String
  first_name : String := ""
  last_name : String := ""
deriving DecidableEq, Repr

/-- The validation-error kinds surfaced by the registration serializer. -/
inductive RegError where
  | duplicateEmail
  | passwordMismatch
deriving DecidableEq, Repr

/-- `UserRegistrationSerializer` validation (users/serializers.py):
the field-level `validate_email` uniqueness check (lines 75-81) runs before
the object-level `validate` password-confirmation check (lines 65-73), which
compares `password` and `password2`. Django's external password-strength
validators are out of scope (spec section 1) and not modelled. -/
def userRegistrationValidate (existing : List RegUser) (d : RegistrationData) :
    Except RegError RegistrationData :=
  if existing.any (fun u => u.email = d.email) then Except.error RegError.duplicateEmail
  else if d.password ≠ d.password2 then Except.error RegError.passwordMismatch
  else Except.ok d

/-- `UserRegistrationView.create` (users/views.py lines 25-40):
`serializer.is_valid(raise_exception=True)` aborts with a 400 before
`serializer.save()`, so a validation failure performs no write; on success
`UserRegistrationSerializer.create` (users/serializers.py lines 83-104)
inserts the new user. Returns the stored state after the request and the
outcome. -/
def userRegistrationCreate (existing : List RegUser) (d : RegistrationData) :
    List RegUser × Except RegError RegUser :=
  match userRegistrationValidate existing d with
  | Except.error e => (existing, Except.error e)
  | Except.ok dv =>
      let u : RegUser := ⟨dv.username, dv.email, dv.password⟩
      (existing ++ [u], Except.ok u)

/-- A stored `Activity` row as the query/serializer layer reads it
(activities/models.py); the calendar date appears here as its day ordinal
(an `Int`), since this layer only compares dates and shifts them by whole
days. -/
structure ActivityRow where
  id : ℕ
  user : ℕ
  activity_type : String
  title : String
  description : String
  duration : ℕ
  distance : Option ℚ
  calories_burned : Option ℕ
  intensity : String
  date : ℤ
  start_time : Option ℕ
  average_heart_rate : Option ℕ
  max_heart_rate : Option ℕ
  elevation_gain : Option ℚ
  location : String
deriving DecidableEq, Repr

/-- The submitted data of an activity write request: each writable field of
`ActivityCreateSerializer` (activities/serializers.py lines 56-63) is present
or absent. -/
structure ActivityPatch where
  activity_type : Option String := none
  title : Option String := none
  description : Option String := none
  duration : Option ℕ := none
  distance : Option ℚ := none
  calories_burned : Option ℕ := none
  intensity : Option String := none
  date : Option ℤ := none
  start_time : Option ℕ := none
  average_heart_rate : Option ℕ := none
  max_heart_rate : Option ℕ := none
  elevation_gain : Option ℚ := none
  location : Option String := none
deriving DecidableEq, Repr

/-- Membership of a submitted choice value in a Django choices table. -/
def validChoice (choices : List (String × String)) (c : String) : Bool :=
  choices.any (fun p => p.1 = c)

/-- The validation `ActivityCreateSerializer` actually runs on a write:
the per-field checks DRF derives from the model fields
(activities/models.py lines 47-130: choice membership, `duration ≥ 1`,
non-negative decimals, heart rates in [30, 220]), applied to the fields
present in the submitted data. `ActivityCreateSerializer` declares no
object-level `validate`, so no cross-field check appears here. -/
def createSerializerRunValidation (p : ActivityPatch) : Bool :=
  (match p.activity_type with
   | some t => validChoice ACTIVITY_TYPE_CHOICES t
   | none => true) &&
  (match p.duration with | some d => decide (1 ≤ d) | none => true) &&
  (match p.distance with | some x => decide (0 ≤ x) | none => true) &&
  (match p.average_heart_rate with
   | some h => decide (30 ≤ h ∧ h ≤ 220)
   | none => true) &&
  (match p.max_heart_rate with
   | some h => decide (30 ≤ h ∧ h ≤ 220)
   | none => true) &&
  (match p.elevation_gain with | some e => decide (0 ≤ e) | none => true) &&
  (match p.intensity with | some i => validChoice INTENSITY_CHOICES i | none => true)

/-- `ActivitySerializer.validate` (activities/serializers.py lines 37-49):
the heart-rate cross-field check. It reads only `attrs.get(...)` over the
submitted data, and Python truthiness makes a present value of 0 skip the
check; on failure the error is keyed by the offending field. This serializer
is the one `get_serializer_class` selects for reads only. -/
def activitySerializerValidate (attrs : ActivityPatch) : Except String ActivityPatch :=
  match attrs.average_heart_rate, attrs.max_heart_rate with
  | some avg, some mx =>
      if avg ≠ 0 ∧ mx ≠ 0 ∧ mx < avg then Except.error "average_heart_rate"
      else Except.ok attrs
  | _, _ => Except.ok attrs

/-- Outcomes of the activity endpoints, as far as the claims distinguish them. -/
inductive HttpResponse where
  | ok (a : ActivityRow)
  | created (a : ActivityRow)
  | noContent
  | notFound
  | forbidden
  | badRequest
deriving DecidableEq, Repr

/-- `ActivityDetailView.get_queryset` (activities/views.py lines 65-69):
the base scope of every single-activity request is the caller's own rows. -/
def get_queryset (db : List ActivityRow) (u : ℕ) : List ActivityRow :=
  db.filter (fun a => decide (a.user = u))

/-- DRF's `get_object` over that queryset: look the `pk` up inside
`get_queryset`; a miss raises Http404. -/
def get_object (db : List ActivityRow) (u pk : ℕ) : Option ActivityRow :=
  (get_queryset db u).find? (fun a => decide (a.id = pk))

/-- `GET /api/activities/{id}/`. -/
def retrieveActivity (db : List ActivityRow) (u pk : ℕ) : HttpResponse :=
  match get_object db u pk with
  | some a => HttpResponse.ok a
  | none => HttpResponse.notFound

/-- Overlay the submitted fields onto a stored row (DRF partial update:
each present field replaces the stored one, absent fields keep it). -/
def applyPatch (a : ActivityRow) (p : ActivityPatch) : ActivityRow :=
  { id := a.id
    user := a.user
    activity_type := p.activity_type.getD a.activity_type
    title := p.title.getD a.title
    description := p.description.getD a.description
    duration := p.duration.getD a.duration
    distance := match p.distance with | some x => some x | none => a.distance
    calories_burned := match p.calories_burned with | some x => some x | none => a.calories_burned
    intensity := p.intensity.getD a.intensity
    date := p.date.getD a.date
    start_time := match p.start_time with | some x => some x | none => a.start_time
    average_heart_rate := match p.average_heart_rate with
      | some x => some x
      | none => a.average_heart_rate
    max_heart_rate := match p.max_heart_rate with | some x => some x | none => a.max_heart_rate
    elevation_gain := match p.elevation_gain with | some x => some x | none => a.elevation_gain
    location := p.location.getD a.location }

/-- `PATCH /api/activities/{id}/` (ActivityDetailView with
`ActivityCreateSerializer`): 404 before anything else when `get_object`
misses; otherwise run the serializer validation over the submitted fields
and, on success, save the merged row. Returns the stored state after the
request and the response. -/
def patchActivity (db : List ActivityRow) (u pk : ℕ) (p : ActivityPatch) :
    List ActivityRow × HttpResponse :=
  match get_object db u pk with
  | none => (db, HttpResponse.notFound)
  | some a =>
      if createSerializerRunValidation p then
        let a2 := applyPatch a p
        (db.map (fun b => if b.id = pk then a2 else b), HttpResponse.ok a2)
      else (db, HttpResponse.badRequest)

/-- `DELETE /api/activities/{id}/`: 404 when `get_object` misses, else the
row is removed and 204 returned. -/
def destroyActivity (db : List ActivityRow) (u pk : ℕ) : List ActivityRow × HttpResponse :=
  match get_object db u pk with
  | none => (db, HttpResponse.notFound)
  | some a => (db.filter (fun b => decide (b.id ≠ a.id)), HttpResponse.noContent)

/-- Required writable fields of a create request: `activity_type` and
`duration` have neither a default nor `blank=True`; `date` defaults to
today and every other field is optional. -/
def requiredFieldsPresent (p : ActivityPatch) : Bool :=
  p.activity_type.isSome && p.duration.isSome

/-- `POST /api/activities/` (ActivityListCreateView with
`ActivityCreateSerializer`): validate the submitted fields, then insert a row
owned by the caller, filling model defaults for absent fields (`title` and
text fields default to the empty string, `intensity` to MODERATE, `date` to
today). Auto-titling on save concerns the calendar form of the date and is
modelled by `Activity.save`. -/
def createActivity (db : List ActivityRow) (u newId : ℕ) (today : ℤ)
    (p : ActivityPatch) : List ActivityRow × HttpResponse :=
  if requiredFieldsPresent p && createSerializerRunValidation p then
    let a : ActivityRow :=
      { id := newId
        user := u
        activity_type := p.activity_type.getD ""
        title := p.title.getD ""
        description := p.description.getD ""
        duration := p.duration.getD 0
        distance := p.distance
        calories_burned := p.calories_burned
        intensity := p.intensity.getD "MODERATE"
        date := p.date.getD today
        start_time := p.start_time
        average_heart_rate := p.average_heart_rate
        max_heart_rate := p.max_heart_rate
        elevation_gain := p.elevation_gain
        location := p.location.getD "" }
    (db ++ [a], HttpResponse.created a)
  else (db, HttpResponse.badRequest)

/-- The period shortcut of `activity_metrics` (activities/views.py lines
102-109): a truthy `period` of week/month/year REASSIGNS `date_from` to
today minus 7/30/365 days; any other truthy value leaves the explicit
`date_from` in place, as does an absent period. -/
def resolveDateFrom (dateFrom : Option ℤ) (period : Option String) (today : ℤ) : Option ℤ :=
  match period with
  | some p =>
      if p ≠ "" then
        (if p = "week" then some (today - 7)
         else if p = "month" then some (today - 30)
         else if p = "year" then some (today - 365)
         else dateFrom)
      else dateFrom
  | none => dateFrom

/-- `if date_from: queryset = queryset.filter(date__gte=date_from)`
(activities/views.py lines 111-112). -/
def filterDateFrom (df : Option ℤ) (qs : List ActivityRow) : List ActivityRow :=
  match df with
  | some f => qs.filter (fun a => decide (f ≤ a.date))
  | none => qs

/-- `if date_to: queryset = queryset.filter(date__lte=date_to)`
(activities/views.py lines 113-114). -/
def filterDateTo (dt : Option ℤ) (qs : List ActivityRow) : List ActivityRow :=
  match dt with
  | some t => qs.filter (fun a => decide (a.date ≤ t))
  | none => qs

/-- `if activity_type: queryset = queryset.filter(activity_type=...)`
(activities/views.py lines 115-116); an empty query-parameter string is
falsy. -/
def filterActivityType (ty : Option String) (qs : List ActivityRow) : List ActivityRow :=
  match ty with
  | some t => if t ≠ "" then qs.filter (fun a => decide (a.activity_type = t)) else qs
  | none => qs

/-- The queryset `activity_metrics` aggregates over (activities/views.py
lines 98-116): the caller's rows, then the date and type filters in source
order, with `date_from` first passed through the period shortcut. -/
def metricsQueryset (db : List ActivityRow) (u : ℕ) (today : ℤ)
    (dateFrom dateTo : Option ℤ) (activityType period : Option String) :
    List ActivityRow :=
  filterActivityType activityType
    (filterDateTo dateTo
      (filterDateFrom (resolveDateFrom dateFrom period today)
        (db.filter (fun a => decide (a.user = u)))))

/-- SQL `Sum` over a nullable column: `NULL` rows are ignored and the sum of
no rows is `NULL`. -/
def sqlSum (f : ActivityRow → Option ℚ) (l : List ActivityRow) : Option ℚ :=
  let vs := l.filterMap f
  if vs.isEmpty then none else some vs.sum

/-- SQL `Avg` over a nullable column: the mean of the non-`NULL` values,
`NULL` when there are none. -/
def sqlAvg (f : ActivityRow → Option ℚ) (l : List ActivityRow) : Option ℚ :=
  let vs := l.filterMap f
  if vs.isEmpty then none else some (vs.sum / (vs.length : ℚ))

/-- `.values('activity_type').annotate(count=Count('id'))`: the distinct
activity types of the set, each with its row count (grouping order is the
first-encounter order). -/
def typeCounts (l : List ActivityRow) : List (String × ℕ) :=
  (l.map (fun a => a.activity_type)).foldl
    (fun acc t =>
      if acc.any (fun q => q.1 = t) then
        acc.map (fun q => if q.1 = t then (q.1, q.2 + 1) else q)
      else acc ++ [(t, 1)])
    []

/-- Insert into a list kept in descending count order (stable on ties). -/
def insertByCountDesc (p : String × ℕ) : List (String × ℕ) → List (String × ℕ)
  | [] => [p]
  | q :: rest => if q.2 < p.2 then p :: q :: rest else q :: insertByCountDesc p rest

/-- `.order_by('-count')`: sort the groups by descending count. The database
leaves the order of tied groups unspecified; this model keeps them stable,
and no claim below depends on a tie. -/
def orderByCountDesc (l : List (String × ℕ)) : List (String × ℕ) :=
  l.foldr insertByCountDesc []

/-- The `summary_data` payload of `activity_metrics`
(activities/views.py lines 144-154). -/
structure Summary where
  total_activities : ℕ
  total_duration : ℚ
  total_distance : ℚ
  total_calories : ℚ
  average_duration : ℚ
  average_distance : ℚ
  average_calories : ℚ
  most_common_activity : Option String
  activity_breakdown : List (String × ℕ)
deriving DecidableEq, Repr

/-- The aggregation step of `activity_metrics` (activities/views.py lines
118-154) over the already-filtered set: `Count`/`Sum`/`Avg` with SQL NULL
semantics, `x or 0` turning a NULL aggregate into 0, averages rounded to two
places, the breakdown ordered by descending count and the most common
activity its first entry. -/
def summarize (l : List ActivityRow) : Summary :=
  let breakdown := orderByCountDesc (typeCounts l)
  { total_activities := l.length
    total_duration := (sqlSum (fun a => some (a.duration : ℚ)) l).getD 0
    total_distance := (sqlSum (fun a => a.distance) l).getD 0
    total_calories := (sqlSum (fun a => a.calories_burned.map (fun c => (c : ℚ))) l).getD 0
    average_duration := round2 ((sqlAvg (fun a => some (a.duration : ℚ)) l).getD 0)
    average_distance := round2 ((sqlAvg (fun a => a.distance) l).getD 0)
    average_calories :=
      round2 ((sqlAvg (fun a => a.calories_burned.map (fun c => (c : ℚ))) l).getD 0)
    most_common_activity := breakdown.head?.map (fun q => q.1)
    activity_breakdown := breakdown }

/-- Claim C3: for every activity with distance > 0 the derived pace is
round(duration / distance, 2) and the derived speed is
round(distance / (duration / 60), 2); with distance absent or 0 both are
null. Duration ≥ 1 is the model invariant on stored activities. -/
theorem c3_pace_speed (a : Activity) (hdur : 1 ≤ a.duration) :
    (∀ d : ℚ, a.distance = some d → 0 < d →
        a.pace = some (round2 ((a.duration : ℚ) / d)) ∧
        a.speed = some (round2 (d / ((a.duration : ℚ) / 60)))) ∧
    (a.distance = none ∨ a.distance = some 0 → a.pace = none ∧ a.speed = none) := by
  have hdur0 : 0 < a.duration := hdur
  constructor
  · intro d hd hpos
    constructor
    · simp [Activity.pace, hd, hpos, hpos.ne']
    · simp [Activity.speed, hd, hpos.ne', hdur0]
  · intro h
    rcases h with h | h <;> simp [Activity.pace, Activity.speed, h]

/-- A concrete activity: a 30-minute run over 5 km. -/
def actC3 : Activity := ⟨"RUNNING", "Morning run", 30, some 5, ⟨2024, 6, 1⟩⟩

/-- Witness for C3 at a concrete activity: pace 6.00 min/km, speed 10.00 km/h. -/
theorem c3_pace_speed_witness : actC3.pace = some 6 ∧ actC3.speed = some 10 := by
  have h := (c3_pace_speed actC3 (by decide)).1 5 rfl (by norm_num)
  refine ⟨?_, ?_⟩
  · rw [h.1]; norm_num [actC3, round2, roundHalfEven]
  · rw [h.2]; norm_num [actC3, round2, roundHalfEven]

/-- Claim C7: saving an activity whose title is absent or empty sets the
title to "(activity type display name) - (date)"; a non-empty title is kept. -/
theorem c7_auto_title (a : Activity) :
    (a.title = "" →
      (a.save).title = getActivityTypeDisplay a.activity_type ++ " - " ++ a.date.toIso) ∧
    (a.title ≠ "" → (a.save).title = a.title) := by
  constructor
  · intro h; simp [Activity.save, h]
  · intro h; simp [Activity.save, h]

/-- A concrete untitled cycling activity. -/
def actC7 : Activity := ⟨"CYCLING", "", 45, none, ⟨2024, 6, 5⟩⟩

/-- Witness for C7: the untitled activity is saved as "Cycling - 2024-06-05". -/
theorem c7_auto_title_witness : (actC7.save).title = "Cycling - 2024-06-05" := by
  have h := (c7_auto_title actC7).1 rfl
  rw [h]; rfl

/-- Claim C8: with a date of birth the derived age is today's year minus the
birth year, decremented by one exactly when today's (month, day) precedes
the birth (month, day) lexicographically; in particular, born 2000-06-15 the
age is 23 on 2024-06-14 and 24 on 2024-06-15. -/
theorem c8_age_formula :
    (∀ (p : UserProfile) (today dob : CalDate), p.date_of_birth = some dob →
        p.age today = some ((today.year : ℤ) - (dob.year : ℤ) -
          (if today.month < dob.month ∨ (today.month = dob.month ∧ today.day < dob.day)
           then 1 else 0))) ∧
    ({ date_of_birth := some ⟨2000, 6, 15⟩ } : UserProfile).age ⟨2024, 6, 14⟩ = some 23 ∧
    ({ date_of_birth := some ⟨2000, 6, 15⟩ } : UserProfile).age ⟨2024, 6, 15⟩ = some 24 := by
  refine ⟨?_, by decide, by decide⟩
  intro p today dob h
  simp [UserProfile.age, h]

/-- Witness for C8: the general formula applied on the 2000-06-15 birthday
the day before the 24th anniversary. -/
theorem c8_age_formula_witness :
    ({ date_of_birth := some ⟨2000, 6, 15⟩ } : UserProfile).age ⟨2024, 6, 14⟩ = some 23 := by
  have h := c8_age_formula.1 { date_of_birth := some ⟨2000, 6, 15⟩ } ⟨2024, 6, 14⟩
    ⟨2000, 6, 15⟩ rfl
  rw [h]; decide

/-- Registration validation with mismatched passwords can only fail: either
on the earlier field-level duplicate-email check, or on the password check. -/
theorem validate_mismatch_fails (st : List RegUser) (d : RegistrationData)
    (hp : d.password ≠ d.password2) :
    userRegistrationValidate st d = Except.error RegError.duplicateEmail ∨
    userRegistrationValidate st d = Except.error RegError.passwordMismatch := by
  by_cases he : st.any (fun u => decide (u.email = d.email)) = true
  · left; simp [userRegistrationValidate, he]
  · right; simp [userRegistrationValidate, he, hp]

/-- Claim C5: registration with unequal password/password2 leaves the stored
users unchanged, and (when the email is not already taken, so the earlier
field check passes) fails precisely with the password-mismatch error. -/
theorem c5_password_mismatch (st : List RegUser) (d : RegistrationData)
    (hp : d.password ≠ d.password2) :
    (userRegistrationCreate st d).1 = st ∧
    ((∀ u ∈ st, u.email ≠ d.email) →
      (userRegistrationCreate st d).2 = Except.error RegError.passwordMismatch) := by
  constructor
  · rcases validate_mismatch_fails st d hp with h | h <;>
      simp [userRegistrationCreate, h]
  · intro hu
    have he : st.any (fun u => decide (u.email = d.email)) = false := by
      simp only [List.any_eq_false, decide_eq_true_eq]
      exact fun u hm => hu u hm
    simp [userRegistrationCreate, userRegistrationValidate, he, hp]

/-- A concrete registration request whose two password fields differ. -/
def regC5 : RegistrationData :=
  { username := "alice", email := "alice@example.com",
    password := "pw-one", password2 := "pw-two" }

/-- Witness for C5: against an empty user store the request fails with the
password-mismatch error and creates no user. -/
theorem c5_password_mismatch_witness :
    (userRegistrationCreate [] regC5).1 = [] ∧
    (userRegistrationCreate [] regC5).2 = Except.error RegError.passwordMismatch := by
  have h := c5_password_mismatch [] regC5 (by decide)
  exact ⟨h.1, h.2 (by simp)⟩

/-- When no stored row both has the requested id and belongs to the caller,
the owner-scoped lookup misses. -/
theorem get_object_eq_none (db : List ActivityRow) (u pk : ℕ)
    (h : ∀ a ∈ db, a.id = pk → a.user ≠ u) :
    get_object db u pk = none := by
  unfold get_object get_queryset
  rw [List.find?_eq_none]
  intro a ha
  simp only [List.mem_filter, decide_eq_true_eq] at ha
  simp only [decide_eq_true_eq]
  exact fun hid => h a ha.1 hid ha.2

/-- A successful owner-scoped lookup returns a row of the store with the
requested id, owned by the caller. -/
theorem get_object_eq_some (db : List ActivityRow) (u pk : ℕ) (a : ActivityRow)
    (h : get_object db u pk = some a) :
    a ∈ db ∧ a.id = pk ∧ a.user = u := by
  unfold get_object get_queryset at h
  have h1 := List.mem_of_find?_eq_some h
  have h2 := List.find?_some h
  simp only [List.mem_filter, decide_eq_true_eq] at h1
  simp only [decide_eq_true_eq] at h2
  exact ⟨h1.1, h2, h1.2⟩

/-- Claim C2: for an authenticated caller, a single-activity request whose id
does not exist or belongs to another user answers 404 in every method — the
same response in both cases, never 403 — and the store is not modified. -/
theorem c2_cross_user_not_found (db : List ActivityRow) (u pk : ℕ) (p : ActivityPatch)
    (h : ∀ a ∈ db, a.id = pk → a.user ≠ u) :
    retrieveActivity db u pk = HttpResponse.notFound ∧
    patchActivity db u pk p = (db, HttpResponse.notFound) ∧
    destroyActivity db u pk = (db, HttpResponse.notFound) ∧
    retrieveActivity db u pk ≠ HttpResponse.forbidden := by
  have hn := get_object_eq_none db u pk h
  refine ⟨?_, ?_, ?_, ?_⟩ <;>
    simp [retrieveActivity, patchActivity, destroyActivity, hn]

/-- A concrete activity stored by user 2. -/
def rowOther : ActivityRow :=
  { id := 1, user := 2, activity_type := "SWIMMING", title := "Swim",
    description := "", duration := 45, distance := some 2,
    calories_burned := some 400, intensity := "MODERATE", date := 0,
    start_time := none, average_heart_rate := none, max_heart_rate := none,
    elevation_gain := none, location := "" }

/-- Witness for C2: user 1 requesting user 2's activity (id 1) gets 404 on
retrieve and delete, and the store is untouched. -/
theorem c2_cross_user_not_found_witness :
    retrieveActivity [rowOther] 1 1 = HttpResponse.notFound ∧
    destroyActivity [rowOther] 1 1 = ([rowOther], HttpResponse.notFound) := by
  have h := c2_cross_user_not_found [rowOther] 1 1 {} (by decide)
  exact ⟨h.1, h.2.2.1⟩

/-- Claim C9 (implicit): the heart-rate cross-field check reads only the
attributes submitted in the request, so a partial update supplying
average_heart_rate alone passes it whatever is stored, and the actual PATCH
path accepts it: the merged stored activity can end with average > max. -/
theorem c9_partial_update_skips_hr_check (db : List ActivityRow) (u pk : ℕ)
    (a : ActivityRow) (avg m : ℕ)
    (hobj : get_object db u pk = some a)
    (h30 : 30 ≤ avg) (h220 : avg ≤ 220)
    (hmax : a.max_heart_rate = some m) (hlt : m < avg) :
    activitySerializerValidate { average_heart_rate := some avg } =
      Except.ok { average_heart_rate := some avg } ∧
    (patchActivity db u pk { average_heart_rate := some avg }).2 =
      HttpResponse.ok (applyPatch a { average_heart_rate := some avg }) ∧
    (applyPatch a { average_heart_rate := some avg }).average_heart_rate = some avg ∧
    (applyPatch a { average_heart_rate := some avg }).max_heart_rate = some m ∧
    ∃ b ∈ (patchActivity db u pk { average_heart_rate := some avg }).1,
      b.average_heart_rate = some avg ∧ b.max_heart_rate = some m ∧ m < avg := by
  have hval : createSerializerRunValidation { average_heart_rate := some avg } = true := by
    simp [createSerializerRunValidation, h30, h220]
  obtain ⟨hmem, hid, -⟩ := get_object_eq_some db u pk a hobj
  refine ⟨rfl, ?_, ?_, ?_, ?_⟩
  · simp [patchActivity, hobj, hval]
  · simp [applyPatch]
  · simp [applyPatch, hmax]
  · refine ⟨applyPatch a { average_heart_rate := some avg }, ?_, by simp [applyPatch],
      by simp [applyPatch, hmax], hlt⟩
    simp only [patchActivity, hobj, hval, if_true]
    exact List.mem_map.mpr ⟨a, hmem, by simp [hid]⟩

/-- A concrete activity of user 1 with max heart rate 100. -/
def rowMine : ActivityRow :=
  { id := 1, user := 1, activity_type := "RUNNING", title := "Run",
    description := "", duration := 30, distance := none,
    calories_burned := none, intensity := "MODERATE", date := 0,
    start_time := none, average_heart_rate := some 90,
    max_heart_rate := some 100, elevation_gain := none, location := "" }

/-- Witness for C9: patching only average_heart_rate to 180 over a stored max
of 100 is accepted and stores average 180 > max 100. -/
theorem c9_partial_update_skips_hr_check_witness :
    ∃ b ∈ (patchActivity [rowMine] 1 1 { average_heart_rate := some 180 }).1,
      b.average_heart_rate = some 180 ∧ b.max_heart_rate = some 100 ∧ (100:ℕ) < 180 := by
  exact (c9_partial_update_skips_hr_check [rowMine] 1 1 rowMine 180 100 rfl
    (by decide) (by decide) rfl (by decide)).2.2.2.2

/-- The submitted data of the C6 failing input: a write with
average_heart_rate 150 above max_heart_rate 100, both inside [30, 220]. -/
def c6Patch : ActivityPatch :=
  { activity_type := some "RUNNING", duration := some 30,
    average_heart_rate := some 150, max_heart_rate := some 100 }

/-- Claim C6, evaluated at the failing input: the activity write path
(`ActivityCreateSerializer`, which `get_serializer_class` selects for every
POST/PUT/PATCH) carries no heart-rate cross-field check, so this write is
accepted and stores average 150 > max 100 — while the check that does exist,
`ActivitySerializer.validate` on the read serializer, would have rejected
these very attributes. -/
theorem c6_write_path_accepts_avg_above_max :
    (∃ b ∈ (createActivity [] 1 1 0 c6Patch).1,
        b.average_heart_rate = some 150 ∧ b.max_heart_rate = some 100 ∧ (100:ℕ) < 150) ∧
    (createActivity [] 1 1 0 c6Patch).2 ≠ HttpResponse.badRequest ∧
    activitySerializerValidate c6Patch = Except.error "average_heart_rate" := by
  refine ⟨?_, by decide, by rfl⟩
  decide

/-- Claim C4: the summary over an empty filtered activity set has count 0,
all sums 0, all averages 0, no most common activity, and an empty breakdown. -/
theorem c4_empty_summary :
    (summarize []).total_activities = 0 ∧
    (summarize []).total_duration = 0 ∧
    (summarize []).total_distance = 0 ∧
    (summarize []).total_calories = 0 ∧
    (summarize []).average_duration = 0 ∧
    (summarize []).average_distance = 0 ∧
    (summarize []).average_calories = 0 ∧
    (summarize []).most_common_activity = none ∧
    (summarize []).activity_breakdown = [] := by
  refine ⟨rfl, rfl, rfl, rfl, ?_, ?_, ?_, rfl, rfl⟩ <;>
    norm_num [summarize, sqlAvg, round2, roundHalfEven]

/-- Summing the present values of a nullable column equals summing with the
missing values as 0. -/
theorem sum_filterMap_getD (f : ActivityRow → Option ℚ) (l : List ActivityRow) :
    (l.filterMap f).sum = (l.map (fun a => (f a).getD 0)).sum := by
  induction l with
  | nil => rfl
  | cons a t ih => cases h : f a <;> simp [List.filterMap_cons, h, ih]

/-- The `Sum(...) or 0` step of the summary: a SQL sum with NULLs ignored and
a NULL total replaced by 0 is the sum treating missing values as 0. -/
theorem sqlSum_getD (f : ActivityRow → Option ℚ) (l : List ActivityRow) :
    (sqlSum f l).getD 0 = (l.map (fun a => (f a).getD 0)).sum := by
  rw [← sum_filterMap_getD]
  simp only [sqlSum]
  by_cases h : (l.filterMap f).isEmpty = true
  · have h2 : l.filterMap f = [] := by simpa using h
    simp [h, h2]
  · simp [h]

/-- The `Avg(...)` step when at least one value is present: the mean over the
present values only. -/
theorem sqlAvg_present (f : ActivityRow → Option ℚ) (l : List ActivityRow)
    (h : l.filterMap f ≠ []) :
    (sqlAvg f l).getD 0 = (l.filterMap f).sum / ((l.filterMap f).length : ℚ) := by
  have h2 : (l.filterMap f).isEmpty = false := by simpa using h
  simp [sqlAvg, h2]

/-- A 30-minute run over 6 km (calories not recorded). -/
def rowDist6 : ActivityRow :=
  { id := 1, user := 1, activity_type := "RUNNING", title := "",
    description := "", duration := 30, distance := some 6,
    calories_burned := none, intensity := "MODERATE", date := 0,
    start_time := none, average_heart_rate := none, max_heart_rate := none,
    elevation_gain := none, location := "" }

/-- A yoga session with no distance recorded. -/
def rowDistNone : ActivityRow :=
  { id := 2, user := 1, activity_type := "YOGA", title := "",
    description := "", duration := 60, distance := none,
    calories_burned := none, intensity := "LOW", date := 0,
    start_time := none, average_heart_rate := none, max_heart_rate := none,
    elevation_gain := none, location := "" }

/-- On the pair [6 km, missing] the summary's average_distance is 6:
the mean over the single present value. -/
theorem summarize_pair_average_distance :
    (summarize [rowDist6, rowDistNone]).average_distance = 6 := by
  have hfm : List.filterMap (fun a => a.distance) [rowDist6, rowDistNone] = [6] := rfl
  have h : sqlAvg (fun a => a.distance) [rowDist6, rowDistNone] = some 6 := by
    simp only [sqlAvg, hfm]
    norm_num
  simp only [summarize, h, Option.getD_some]
  norm_num [round2, roundHalfEven]

/-- On the pair [6 km, missing] the summary's total_distance is 6 over
2 activities. -/
theorem summarize_pair_total_distance :
    (summarize [rowDist6, rowDistNone]).total_distance = 6 ∧
    (summarize [rowDist6, rowDistNone]).total_activities = 2 := by
  have hfm : List.filterMap (fun a => a.distance) [rowDist6, rowDistNone] = [6] := rfl
  have h : sqlSum (fun a => a.distance) [rowDist6, rowDistNone] = some 6 := by
    simp only [sqlSum, hfm]
    norm_num
  exact ⟨by simp only [summarize, h, Option.getD_some], by simp [summarize]⟩

/-- Claim C10 as amended: total_distance and total_calories treat missing
values as 0; average_distance and average_calories average over only the
rows where the value is present (and degrade to 0 when no row has one); and
there is a non-empty set with missing values on which average_distance
differs from total_distance / total_activities — but not every such set
does, so the universal form of the claim fails. -/
theorem c10_averages_over_present_only :
    (∀ l : List ActivityRow,
        (summarize l).total_distance = (l.map (fun a => a.distance.getD 0)).sum ∧
        (summarize l).total_calories =
          (l.map (fun a => ((a.calories_burned.map (fun c => (c : ℚ))).getD 0))).sum) ∧
    (∀ l : List ActivityRow, l.filterMap (fun a => a.distance) ≠ [] →
        (summarize l).average_distance =
          round2 ((l.filterMap (fun a => a.distance)).sum /
            ((l.filterMap (fun a => a.distance)).length : ℚ))) ∧
    (∀ l : List ActivityRow,
        l.filterMap (fun a => a.calories_burned.map (fun c => (c : ℚ))) ≠ [] →
        (summarize l).average_calories =
          round2 ((l.filterMap (fun a => a.calories_burned.map (fun c => (c : ℚ)))).sum /
            ((l.filterMap (fun a => a.calories_burned.map (fun c => (c : ℚ)))).length : ℚ))) ∧
    (∀ l : List ActivityRow, l.filterMap (fun a => a.distance) = [] →
        (summarize l).average_distance = 0) ∧
    (∃ l : List ActivityRow, l ≠ [] ∧ (∃ a ∈ l, a.distance = none) ∧
        (summarize l).average_distance ≠
          (summarize l).total_distance / ((summarize l).total_activities : ℚ)) := by
  refine ⟨?_, ?_, ?_, ?_, ?_⟩
  · intro l
    exact ⟨sqlSum_getD (fun a => a.distance) l,
      sqlSum_getD (fun a => a.calories_burned.map (fun c => (c : ℚ))) l⟩
  · intro l h
    simp only [summarize]
    rw [sqlAvg_present (fun a => a.distance) l h]
  · intro l h
    simp only [summarize]
    rw [sqlAvg_present (fun a => a.calories_burned.map (fun c => (c : ℚ))) l h]
  · intro l h
    have h2 : (l.filterMap (fun a => a.distance)).isEmpty = true := by simpa using h
    simp only [summarize, sqlAvg, h2]
    norm_num [round2, roundHalfEven]
  · refine ⟨[rowDist6, rowDistNone], by simp, ⟨rowDistNone, by simp, rfl⟩, ?_⟩
    rw [summarize_pair_average_distance, summarize_pair_total_distance.1,
      summarize_pair_total_distance.2]
    norm_num

/-- Witness for C10: on [distance 6 km, distance missing] the summary reports
total_distance 6 but average_distance 6 (mean over present values), not 3. -/
theorem c10_averages_over_present_only_witness :
    (summarize [rowDist6, rowDistNone]).average_distance = 6 := by
  have h := c10_averages_over_present_only.2.1 [rowDist6, rowDistNone]
    (by simp [rowDist6, rowDistNone])
  rw [h]
  have h2 : List.filterMap (fun a => a.distance) [rowDist6, rowDistNone] = [6] := rfl
  rw [h2]
  norm_num [round2, roundHalfEven]

/-- A one-row store whose single activity has no distance: a non-empty set
containing a missing value. -/
def rowNoDist : ActivityRow :=
  { id := 1, user := 1, activity_type := "YOGA", title := "Yoga session",
    description := "", duration := 60, distance := none, calories_burned := none,
    intensity := "LOW", date := 0, start_time := none, average_heart_rate := none,
    max_heart_rate := none, elevation_gain := none, location := "" }

/-- Counterexample to C10 as stated: on this non-empty set containing a
missing distance, average_distance (0) EQUALS total_distance /
total_activities (0 / 1), contradicting the claim's universal "is not". -/
theorem c10_counterexample :
    [rowNoDist] ≠ [] ∧ (∃ a ∈ [rowNoDist], a.distance = none) ∧
    (summarize [rowNoDist]).average_distance =
      (summarize [rowNoDist]).total_distance /
        ((summarize [rowNoDist]).total_activities : ℚ) := by
  refine ⟨by simp, ⟨rowNoDist, by simp, rfl⟩, ?_⟩
  have ha : sqlAvg (fun a => a.distance) [rowNoDist] = none := by
    simp [sqlAvg, rowNoDist]
  have hs : sqlSum (fun a => a.distance) [rowNoDist] = none := by
    simp [sqlSum, rowNoDist]
  simp only [summarize, ha, hs, Option.getD_none]
  norm_num [round2, roundHalfEven]

/-- A run dated 5 days before "today". -/
def rowC1 : ActivityRow :=
  { id := 1, user := 1, activity_type := "RUNNING", title := "Run",
    description := "", duration := 30, distance := none, calories_burned := none,
    intensity := "MODERATE", date := -5, start_time := none,
    average_heart_rate := none, max_heart_rate := none, elevation_gain := none,
    location := "" }

/-- Counterexample to C1 as stated: with period=week (floor today-7) and an
explicit date_from of today-2, the metrics queryset still contains an
activity dated today-5, which violates the explicit lower bound — the
period reassigns date_from rather than composing with it
(activities/views.py lines 102-112). -/
theorem c1_counterexample :
    rowC1 ∈ metricsQueryset [rowC1] 1 0 (some (-2)) none none (some "week") ∧
    ¬ ((-2:ℤ) ≤ rowC1.date) := by
  constructor
  · decide
  · decide

/-- The day count of each period shortcut. -/
def periodDays (p : String) : ℤ :=
  if p = "week" then 7 else if p = "month" then 30 else 365

/-- The type filter only narrows the set. -/
theorem mem_of_filterActivityType (ty : Option String) (qs : List ActivityRow)
    (a : ActivityRow) (h : a ∈ filterActivityType ty qs) : a ∈ qs := by
  rcases ty with - | t
  · exact h
  · simp only [filterActivityType] at h
    split at h
    · exact List.mem_of_mem_filter h
    · exact h

/-- The date_to filter only narrows the set. -/
theorem mem_of_filterDateTo (dt : Option ℤ) (qs : List ActivityRow)
    (a : ActivityRow) (h : a ∈ filterDateTo dt qs) : a ∈ qs := by
  rcases dt with - | t
  · exact h
  · exact List.mem_of_mem_filter h

/-- Every member of a date_from-filtered set satisfies the lower bound. -/
theorem bound_of_mem_filterDateFrom (f : ℤ) (qs : List ActivityRow)
    (a : ActivityRow) (h : a ∈ filterDateFrom (some f) qs) : f ≤ a.date := by
  simp only [filterDateFrom] at h
  have h2 := List.of_mem_filter h
  simpa using h2

/-- Claim C1 as amended: when a valid period (week/month/year) is supplied to
the metrics computation, it REPLACES any explicit date_from — the result is
the same queryset as with no explicit date_from at all — and every activity
in the result satisfies the period-derived floor today - periodDays. (An
explicit date_from older than the floor is thus still trivially satisfied,
but a newer one is discarded, not composed.) -/
theorem c1_period_overrides_date_from (db : List ActivityRow) (u : ℕ)
    (today f : ℤ) (dt : Option ℤ) (ty : Option String) (p : String)
    (hp : p = "week" ∨ p = "month" ∨ p = "year") :
    metricsQueryset db u today (some f) dt ty (some p) =
      metricsQueryset db u today none dt ty (some p) ∧
    ∀ a ∈ metricsQueryset db u today (some f) dt ty (some p),
      today - periodDays p ≤ a.date := by
  have hres : resolveDateFrom (some f) (some p) today = some (today - periodDays p) ∧
      resolveDateFrom none (some p) today = some (today - periodDays p) := by
    rcases hp with h | h | h <;> subst h <;> exact ⟨rfl, rfl⟩
  constructor
  · unfold metricsQueryset
    rw [hres.1, hres.2]
  · intro a ha
    unfold metricsQueryset at ha
    rw [hres.1] at ha
    exact bound_of_mem_filterDateFrom _ _ a
      (mem_of_filterDateTo dt _ a (mem_of_filterActivityType ty _ a ha))

/-- Witness for C1 as amended: concretely, with period=week and explicit
date_from today-2, the queryset equals the one without the explicit bound,
and the run dated today-5 in it satisfies the week floor. -/
theorem c1_period_overrides_date_from_witness :
    metricsQueryset [rowC1] 1 0 (some (-2)) none none (some "week") =
      metricsQueryset [rowC1] 1 0 none none none (some "week") ∧
    (0:ℤ) - periodDays "week" ≤ rowC1.date := by
  have h := c1_period_overrides_date_from [rowC1] 1 0 (-2) none none "week" (Or.inl rfl)
  exact ⟨h.1, h.2 rowC1 (by decide)⟩
